import Mathlib

/-!
# IPTU Checker — verification of the specification against the code

Shallow embedding of the area-comparison / status-classification logic and
the multi-source fallback orchestration of the IPTU Checker repository
(`src/geospatial_analysis.py`, `src/main.py`, `src/image_analysis.py`,
`src/tensorflow_analysis.py`, `src/data_processing.py`, `src/database.py`).

Python floats are modelled as exact rationals (`ℚ`); Python `None` as
`Option.none`; a raised exception as `Except.error`. External services
(geocoders, Earth Engine, the CV libraries) are modelled as oracle inputs:
an environment record carries the outcome each external call would produce,
and the embedded control flow is translated from the source.
-/

namespace IPTU

/-! ## geospatial_analysis.py -/

/-- `determine_status` from `src/geospatial_analysis.py` (lines 37-60):
returns "error" when the registered area is zero, otherwise classifies the
signed percent difference against the tolerance. -/
def determine_status (real_area registered_area tolerance : ℚ) : String :=
  if registered_area = 0 then "error"
  else
    let difference := real_area - registered_area
    let percent_difference := difference / registered_area * 100
    if |percent_difference| ≤ tolerance then "compliant"
    else if percent_difference > tolerance then "underdeclared"
    else "overdeclared"

/-- Cross product term of one polygon edge, used by the shoelace formula. -/
def edgeCross (p q : ℚ × ℚ) : ℚ := p.1 * q.2 - q.1 * p.2

/-- Shoelace sum over the closed ring of a coordinate list. -/
def shoelaceSum (l : List (ℚ × ℚ)) : ℚ :=
  ((l.zip (l.rotate 1)).map (fun pq => edgeCross pq.1 pq.2)).sum

/-- Area of the polygon built from a coordinate list, as computed by
`shapely.Polygon(...).area`: the absolute value of the shoelace sum halved. -/
def polygonArea (l : List (ℚ × ℚ)) : ℚ := |shoelaceSum l| / 2

/-- Result record of `compare_areas`. -/
structure AreaComparison where
  real_area : ℚ
  registered_area : ℚ
  difference : ℚ
  percent_difference : ℚ
  overlap_area : ℚ
  overlap_percent : ℚ
  deriving DecidableEq, Repr

/-- `compare_areas` from `src/geospatial_analysis.py` (lines 5-35).
The polygon areas are the shapely areas of the two coordinate lists; the
intersection area computed by shapely is not reproducible arithmetically, so
it is passed in as the oracle input `overlap_area`. Python float truthiness
(`if registered_area`) becomes a test against zero. -/
def compare_areas (real_coords registered_coords : List (ℚ × ℚ))
    (overlap_area : ℚ) : AreaComparison :=
  let real_area := polygonArea real_coords
  let registered_area := polygonArea registered_coords
  let difference := |real_area - registered_area|
  let overlap_percent :=
    if registered_area ≠ 0 then overlap_area / registered_area * 100 else 0
  let percent_difference :=
    if registered_area ≠ 0 then difference / registered_area * 100 else 0
  ⟨real_area, registered_area, difference, percent_difference,
    overlap_area, overlap_percent⟩

/-! ## main.py — the comparison arithmetic of `analyze_property` -/

/-- `difference = abs(real_area - registered_area)` from `src/main.py` line 61. -/
def main_difference (real_area registered_area : ℚ) : ℚ :=
  |real_area - registered_area|

/-- `percent_difference = (difference / registered_area) * 100 if registered_area
else 0` from `src/main.py` line 62. -/
def main_percent_difference (real_area registered_area : ℚ) : ℚ :=
  if registered_area ≠ 0 then
    main_difference real_area registered_area / registered_area * 100
  else 0

/-- Python `round` to an integer: round half to even (banker rounding),
on the exact rational model of the float. -/
def pyRound (x : ℚ) : ℤ :=
  if Int.fract x = 1 / 2 then (if ⌊x⌋ % 2 = 0 then ⌊x⌋ else ⌊x⌋ + 1)
  else round x

/-- Python `round(x, 2)`: round to two decimal places, ties to even. -/
def pyRound2 (x : ℚ) : ℚ := (pyRound (x * 100) : ℚ) / 100

/-- The `percent_difference` value persisted by `analyze_property`
(`src/main.py` line 73): `round(percent_difference, 2)`. -/
def persisted_percent_difference (real_area registered_area : ℚ) : ℚ :=
  pyRound2 (main_percent_difference real_area registered_area)

/-- The signed formula of the spec, written from the spec:
`percent_difference = (measured_area - declared_area) / declared_area * 100`. -/
def spec_percent_difference (measured_area declared_area : ℚ) : ℚ :=
  (measured_area - declared_area) / declared_area * 100

/-! ## Pixel-to-ground conversion (image_analysis.py / tensorflow_analysis.py)

`math.cos(math.radians(lat))` is a foreign math-library call; its value is
passed in as the oracle input `cosLat`, so the statements quantify over every
latitude through its cosine. -/

/-- `base_meters_per_pixel = 156543.03392 * math.cos(math.radians(lat)) / (2 ** zoom)`
with `zoom = 19`, as in `src/image_analysis.py` line 50 and
`src/tensorflow_analysis.py` line 157. -/
def base_meters_per_pixel (cosLat : ℚ) : ℚ :=
  156543.03392 * cosLat / 2 ^ 19

/-- The area returned by `process_image_with_segmentation`
(`src/image_analysis.py` lines 74 and 85):
`round(contour_area_pixels * base_meters_per_pixel ** 2, 2)`. -/
def process_image_area (cosLat areaPixels : ℚ) : ℚ :=
  pyRound2 (areaPixels * base_meters_per_pixel cosLat ^ 2)

/-- The area returned by `segment_land_tf` when a latitude is given
(`src/tensorflow_analysis.py` lines 158 and 161):
`round(area_pixels * base_meters_per_pixel ** 2, 2)`. -/
def segment_land_tf_area (cosLat areaPixels : ℚ) : ℚ :=
  pyRound2 (areaPixels * base_meters_per_pixel cosLat ^ 2)

/-- The conversion of the spec, written from the spec:
`meters_per_pixel = 156543.03392 * cos(latitude_in_radians) / 2^zoom` with
`zoom = 19`, and `area_m2 = area_pixels * meters_per_pixel^2`. -/
def spec_area_m2 (cosLat areaPixels : ℚ) : ℚ :=
  areaPixels * (156543.03392 * cosLat / 2 ^ 19) ^ 2

/-! ## image_analysis.py — `process_land_measurement` and its fallback chain -/

/-- Outcome of one computer-vision measurement call: it returns a value,
returns `None`, or raises. -/
inductive MethodOutcome where
  | ok (v : ℚ)
  | noneRes
  | raised
  deriving DecidableEq

/-- A measurement method of the fallback chain. -/
inductive Method where
  | yolo
  | tensorflow
  | opencv
  deriving DecidableEq, Repr

/-- Errors `process_land_measurement` can raise: the `ValueError` for a
missing image, a propagated exception from a method, and the final
`ValueError("Could not analyze image - no area detected")`. -/
inductive PErr where
  | invalidImage
  | methodError
  | noArea
  deriving DecidableEq, Repr

/-- Environment of `process_land_measurement`: the module-level availability
flags and the outcome each measurement call would produce, plus whether
`image_path` is given and exists. -/
structure MeasureEnv where
  imageOk : Bool
  yoloAvailable : Bool
  tfAvailable : Bool
  yoloOutcome : MethodOutcome
  tfOutcome : MethodOutcome
  opencvOutcome : MethodOutcome

/-- The value `real_area` holds after a `try`-wrapped method call in the
`auto` branch: a raised exception is caught and leaves `real_area = None`,
and a returned `None` stays `None`. -/
def resOf : MethodOutcome → Option ℚ
  | MethodOutcome.ok v => some v
  | MethodOutcome.noneRes => none
  | MethodOutcome.raised => none

/-- A direct (non-`auto`) method call: a raised exception propagates. -/
def liftRaise : MethodOutcome → Except PErr (Option ℚ)
  | MethodOutcome.ok v => Except.ok (some v)
  | MethodOutcome.noneRes => Except.ok none
  | MethodOutcome.raised => Except.error PErr.methodError

/-- The `auto` branch of `process_land_measurement`
(`src/image_analysis.py` lines 181-202): YOLO when available (exceptions
caught), then TensorFlow when no result yet and available (exceptions
caught), then OpenCV when still no result (exceptions NOT caught).
Returns the methods attempted, in order, and `real_area`. -/
def auto_measure (env : MeasureEnv) : List Method × Except PErr (Option ℚ) :=
  let r1 : Option ℚ :=
    if env.yoloAvailable then resOf env.yoloOutcome else none
  let a1 : List Method := if env.yoloAvailable then [Method.yolo] else []
  let r2 : Option ℚ :=
    if r1.isNone && env.tfAvailable then resOf env.tfOutcome else r1
  let a2 : List Method :=
    if r1.isNone && env.tfAvailable then a1 ++ [Method.tensorflow] else a1
  if r2.isNone then
    (a2 ++ [Method.opencv],
      match env.opencvOutcome with
      | MethodOutcome.ok v => Except.ok (some v)
      | MethodOutcome.noneRes => Except.ok none
      | MethodOutcome.raised => Except.error PErr.methodError)
  else (a2, Except.ok r2)

/-- The closing lines of `process_land_measurement`
(`src/image_analysis.py` lines 208-213): a propagated exception stays an
exception, a `real_area` still equal to `None` raises
`ValueError("Could not analyze image - no area detected")`, and a measured
value is returned. -/
def finalize_area :
    List Method × Except PErr (Option ℚ) → List Method × Except PErr (Option ℚ)
  | (att, Except.error e) => (att, Except.error e)
  | (att, Except.ok none) => (att, Except.error PErr.noArea)
  | (att, Except.ok (some v)) => (att, Except.ok (some v))

/-- `process_land_measurement` from `src/image_analysis.py` (lines 145-213):
raises `ValueError` when the image path is missing or does not exist,
dispatches on the `method` string through the `elif` chain (an unavailable
`tensorflow`/`yolo` selection and any unknown method fall through to the
OpenCV default), and finally raises when `real_area` is still `None`.
Returns the attempted methods and the result. -/
def process_land_measurement (env : MeasureEnv) (method : String) :
    List Method × Except PErr (Option ℚ) :=
  if env.imageOk = false then ([], Except.error PErr.invalidImage)
  else
    finalize_area
      (if method = "tensorflow" && env.tfAvailable then
        ([Method.tensorflow], liftRaise env.tfOutcome)
      else if method = "yolo" && env.yoloAvailable then
        ([Method.yolo], liftRaise env.yoloOutcome)
      else if method = "opencv" then
        ([Method.opencv], liftRaise env.opencvOutcome)
      else if method = "auto" then auto_measure env
      else ([Method.opencv], liftRaise env.opencvOutcome))

/-! ## data_processing.py — geocoding with provider fallback -/

/-- Outcome of one geocoding call: found coordinates, found nothing,
or raised. -/
inductive GeoOutcome where
  | found (lat lng : ℚ)
  | notFound
  | raised
  deriving DecidableEq

/-- Environment of `get_coordinates`: whether the Google Maps client is
configured and the outcome each provider call would produce. -/
structure GeoEnv where
  googleAvailable : Bool
  googleOutcome : GeoOutcome
  osmOutcome : GeoOutcome

/-- `get_coordinates_osm` from `src/data_processing.py` (lines 29-50):
returns the found pair, and `(None, None)` when nothing is found or the
call raises (the exception is caught). -/
def get_coordinates_osm (env : GeoEnv) : Option (ℚ × ℚ) :=
  match env.osmOutcome with
  | GeoOutcome.found lat lng => some (lat, lng)
  | GeoOutcome.notFound => none
  | GeoOutcome.raised => none

/-- `get_coordinates` from `src/data_processing.py` (lines 52-84): uses
OpenStreetMap when forced or when Google Maps is unconfigured; otherwise
tries Google Maps and falls back to OpenStreetMap on an empty result or an
exception (caught). -/
def get_coordinates (env : GeoEnv) (use_osm : Bool) : Option (ℚ × ℚ) :=
  if use_osm || !env.googleAvailable then get_coordinates_osm env
  else
    match env.googleOutcome with
    | GeoOutcome.found lat lng => some (lat, lng)
    | GeoOutcome.notFound => get_coordinates_osm env
    | GeoOutcome.raised => get_coordinates_osm env

/-! ## Imagery fallback (main.py lines 38-55 with data_processing.py
`get_satellite_image`)

`earth_engine_utils` is a module of this repository whose top-level imports
are guarded, so `from earth_engine_utils import get_satellite_image_ee`
succeeds and the `except ImportError` fallback in `get_satellite_image` is
not reachable; an unavailable Earth Engine library makes
`get_satellite_image_ee` return `False`, which is one of the failure cases
folded into the per-source success flags below. -/

/-- A satellite imagery source. -/
inductive ImgSource where
  | sentinel2
  | landsat8
  | google
  deriving DecidableEq, Repr

/-- Environment of the imagery fetch: whether each Earth Engine source
yields and downloads an image, whether the Google Maps key is configured,
and whether the Google Static Maps request succeeds. -/
structure ImgEnv where
  eeSentinelOk : Bool
  eeLandsatOk : Bool
  googleConfigured : Bool
  googleHttpOk : Bool

/-- `get_satellite_image` from `src/data_processing.py` (lines 86-144),
reduced to whether the call produces an image: the Earth Engine sources
succeed iff their pipeline succeeds, and the Google branch requires the key
to be configured and the HTTP request to succeed. -/
def get_satellite_image (env : ImgEnv) : ImgSource → Bool
  | ImgSource.sentinel2 => env.eeSentinelOk
  | ImgSource.landsat8 => env.eeLandsatOk
  | ImgSource.google => env.googleConfigured && env.googleHttpOk

/-- The imagery section of `analyze_property` (`src/main.py` lines 38-55):
try Sentinel-2, then Landsat-8 if that failed, then Google Maps if both
failed. Returns the sources attempted, in order, and whether any succeeded
(`false` means the property is skipped). -/
def analyze_property_imagery (env : ImgEnv) : List ImgSource × Bool :=
  if get_satellite_image env ImgSource.sentinel2 then
    ([ImgSource.sentinel2], true)
  else if get_satellite_image env ImgSource.landsat8 then
    ([ImgSource.sentinel2, ImgSource.landsat8], true)
  else
    ([ImgSource.sentinel2, ImgSource.landsat8, ImgSource.google],
      get_satellite_image env ImgSource.google)

/-! ## database.py — persistence -/

/-- A row of the `land_records` table (`src/database.py` lines 18-31),
without the autoincrement id and timestamp. -/
structure LandRecord where
  address : String
  latitude : Option ℚ
  longitude : Option ℚ
  registered_area : ℚ
  real_area : ℚ
  difference : Option ℚ
  percent_difference : Option ℚ
  status : Option String
  deriving DecidableEq, Repr

/-- `save_terrain_data` from `src/database.py` (lines 38-63): adds the
record and commits, returning `True`; on any error the session rolls back,
leaving the stored records unchanged, and returns `False`. `commitOk`
models whether the add/commit raises. -/
def save_terrain_data (store : List LandRecord) (r : LandRecord)
    (commitOk : Bool) : List LandRecord × Bool :=
  if commitOk then (store ++ [r], true) else (store, false)

/-- `clear_database` from `src/database.py` (lines 70-82): deletes every
record and commits; on error it rolls back. -/
def clear_database (store : List LandRecord) (commitOk : Bool) :
    List LandRecord :=
  if commitOk then [] else store

/-- `get_all_records` from `src/database.py` (lines 65-68): a read that
returns the stored records and does not change them. -/
def get_all_records (store : List LandRecord) : List LandRecord := store

/-- `init_database` from `src/database.py` (lines 33-36): creates tables;
the stored records are untouched. -/
def init_database (store : List LandRecord) : List LandRecord := store

/-- A concrete analysis record, shaped like the sample data of
`src/data_processing.py`, used to exercise the persistence operations. -/
def sampleRecord : LandRecord :=
  ⟨"Avenida Paulista, 1000, São Paulo, SP, Brasil", some 1, some 2,
    500, 520, some 20, some 4, some "underdeclared"⟩

/-! ## Helper lemmas -/

/-- Python rounding of a nonnegative value is nonnegative. -/
lemma pyRound_nonneg (x : ℚ) (hx : 0 ≤ x) : 0 ≤ pyRound x := by
  unfold pyRound
  have hf : (0 : ℤ) ≤ ⌊x⌋ := Int.floor_nonneg.mpr hx
  split_ifs with h1 h2
  · exact hf
  · omega
  · rw [round_eq]
    exact Int.floor_nonneg.mpr (by linarith)

/-- Two-decimal Python rounding of a nonnegative value is nonnegative. -/
lemma pyRound2_nonneg (x : ℚ) (hx : 0 ≤ x) : 0 ≤ pyRound2 x := by
  unfold pyRound2
  have h := pyRound_nonneg (x * 100) (by linarith)
  have h100 : (0 : ℚ) ≤ 100 := by norm_num
  exact div_nonneg (by exact_mod_cast h) h100

/-- `finalize_area` never lets a `None` area through as a success. -/
lemma finalize_area_ok (p : List Method × Except PErr (Option ℚ))
    (x : Option ℚ) (hx : (finalize_area p).2 = Except.ok x) :
    ∃ v, x = some v := by
  rcases p with ⟨att, r⟩
  rcases r with e | o
  · simp [finalize_area] at hx
  · rcases o with _ | v
    · simp [finalize_area] at hx
    · simp [finalize_area] at hx
      exact ⟨v, hx.symm⟩

/-! ## Claim theorems -/

/-- C1: for every `real_area` and `registered_area`, `determine_status` with
the default tolerance 5 implements exactly the classification policy of the
spec: "error" when the registered area is zero, otherwise "compliant" when
the signed percent difference has magnitude at most the tolerance,
"underdeclared" when it exceeds the tolerance, and "overdeclared" when it is
below minus the tolerance. -/
theorem determine_status_default_policy (real_area registered_area : ℚ) :
    (registered_area = 0 →
      determine_status real_area registered_area 5 = "error") ∧
    (registered_area ≠ 0 →
      (|(real_area - registered_area) / registered_area * 100| ≤ 5 →
        determine_status real_area registered_area 5 = "compliant") ∧
      ((real_area - registered_area) / registered_area * 100 > 5 →
        determine_status real_area registered_area 5 = "underdeclared") ∧
      ((real_area - registered_area) / registered_area * 100 < -5 →
        determine_status real_area registered_area 5 = "overdeclared")) := by
  constructor
  · intro h
    simp [determine_status, h]
  · intro h
    refine ⟨fun hpd => ?_, fun hpd => ?_, fun hpd => ?_⟩ <;>
      simp only [determine_status, if_neg h] <;>
      split_ifs with h1 h2 <;>
      first
        | rfl
        | exact absurd hpd h1
        | exact absurd hpd h2
        | (have h3 := abs_le.mp h1; exfalso; linarith)
        | (exfalso; linarith)

/-- C1 witness: a compliant concrete instance, with the hypotheses of the
theorem discharged at `real_area = 100`, `registered_area = 100`. -/
theorem determine_status_default_policy_witness :
    (100 : ℚ) ≠ 0 ∧ determine_status 100 100 5 = "compliant" :=
  ⟨by norm_num,
    ((determine_status_default_policy 100 100).2 (by norm_num)).1
      (by norm_num)⟩

/-- C2 counterexample: at a measured area of 90 against a declared area of
100, the pipeline computes and persists `+10`, while the signed formula of
the spec gives `-10`; the persisted value is not the signed formula and is
not negative when the measured area is smaller. -/
theorem persisted_percent_difference_unsigned_counterexample :
    persisted_percent_difference 90 100 = 10 ∧
    spec_percent_difference 90 100 = -10 ∧
    persisted_percent_difference 90 100 ≠ spec_percent_difference 90 100 := by
  norm_num [persisted_percent_difference, main_percent_difference,
    main_difference, spec_percent_difference, pyRound2, pyRound, Int.fract,
    round_eq]

/-- C2 amended: for every measured area and every positive declared area,
the computed `percent_difference` is the absolute value of the signed
formula of the spec, the persisted value is that magnitude rounded to two
decimal places, and the persisted value is never negative. -/
theorem percent_difference_is_magnitude (real_area registered_area : ℚ)
    (h : 0 < registered_area) :
    main_percent_difference real_area registered_area =
      |spec_percent_difference real_area registered_area| ∧
    persisted_percent_difference real_area registered_area =
      pyRound2 |spec_percent_difference real_area registered_area| ∧
    0 ≤ persisted_percent_difference real_area registered_area := by
  have hne : registered_area ≠ 0 := ne_of_gt h
  have habs : main_percent_difference real_area registered_area =
      |spec_percent_difference real_area registered_area| := by
    simp only [main_percent_difference, main_difference,
      spec_percent_difference, if_pos hne]
    rw [abs_mul, abs_div, abs_of_pos h]
    norm_num
  have hnn : 0 ≤ main_percent_difference real_area registered_area := by
    rw [habs]
    exact abs_nonneg _
  refine ⟨habs, ?_, ?_⟩
  · rw [persisted_percent_difference, habs]
  · exact pyRound2_nonneg _ hnn

/-- C2 amended witness: the theorem instantiated at measured area 110 and
declared area 100, where the magnitude is 10. -/
theorem percent_difference_is_magnitude_witness :
    (0 : ℚ) < 100 ∧
    main_percent_difference 110 100 = |spec_percent_difference 110 100| :=
  ⟨by norm_num, (percent_difference_is_magnitude 110 100 (by norm_num)).1⟩

/-- C3 counterexample: at latitude 0 (cosine 1) and a detected area of one
pixel, both measurement functions return the two-decimal rounding `9/100`,
which differs from the exact value
`area_pixels * (156543.03392 * cos / 2 ^ 19) ^ 2` of the formula of the
spec. -/
theorem measured_area_rounded_counterexample :
    process_image_area 1 1 = 9 / 100 ∧
    segment_land_tf_area 1 1 = 9 / 100 ∧
    spec_area_m2 1 1 ≠ 9 / 100 ∧
    process_image_area 1 1 ≠ spec_area_m2 1 1 ∧
    segment_land_tf_area 1 1 ≠ spec_area_m2 1 1 := by
  norm_num [process_image_area, segment_land_tf_area, spec_area_m2,
    base_meters_per_pixel, pyRound2, pyRound, Int.fract, round_eq]

/-- C3 amended: for every latitude (through its cosine) and every detected
pixel area, both measurement functions return exactly the formula of the
spec — `area_pixels * meters_per_pixel ^ 2` with
`meters_per_pixel = 156543.03392 * cos / 2 ^ 19` and zoom fixed at 19 —
rounded to two decimal places. -/
theorem measured_area_eq_rounded_formula (cosLat areaPixels : ℚ) :
    process_image_area cosLat areaPixels =
      pyRound2 (spec_area_m2 cosLat areaPixels) ∧
    segment_land_tf_area cosLat areaPixels =
      pyRound2 (spec_area_m2 cosLat areaPixels) :=
  ⟨rfl, rfl⟩

/-- C4: with method `auto`, `process_land_measurement` runs the `auto`
fallback chain, whose attempts are a sublist of the fixed order
YOLO, TensorFlow, OpenCV: YOLO is attempted exactly when available,
TensorFlow exactly when YOLO yielded no result (unavailable, raised, or
returned `None`) and TensorFlow is available, and OpenCV exactly when
neither earlier method yielded a result. -/
theorem auto_measure_fallback_order (env : MeasureEnv) :
    List.Sublist (auto_measure env).1
      [Method.yolo, Method.tensorflow, Method.opencv] ∧
    (Method.yolo ∈ (auto_measure env).1 ↔ env.yoloAvailable = true) ∧
    (Method.tensorflow ∈ (auto_measure env).1 ↔
      ((env.yoloAvailable = false ∨ resOf env.yoloOutcome = none) ∧
        env.tfAvailable = true)) ∧
    (Method.opencv ∈ (auto_measure env).1 ↔
      ((env.yoloAvailable = false ∨ resOf env.yoloOutcome = none) ∧
        (env.tfAvailable = false ∨ resOf env.tfOutcome = none))) ∧
    (env.imageOk = true →
      (process_land_measurement env "auto").1 = (auto_measure env).1) := by
  obtain ⟨img, ya, ta, yo, tfo, co⟩ := env
  have hlink : img = true →
      (process_land_measurement ⟨img, ya, ta, yo, tfo, co⟩ "auto").1 =
        (auto_measure ⟨img, ya, ta, yo, tfo, co⟩).1 := by
    intro himg
    subst himg
    simp only [process_land_measurement]
    norm_num
    rcases h2 : (auto_measure ⟨true, ya, ta, yo, tfo, co⟩) with ⟨att, r⟩
    rcases r with e | o
    · simp [finalize_area]
    · rcases o with _ | v <;> simp [finalize_area]
  refine ⟨?_, ?_, ?_, ?_, hlink⟩ <;>
    cases ya <;> cases ta <;> cases yo <;> cases tfo <;>
      simp [auto_measure, resOf]

/-- C4 witness: the link between `process_land_measurement` and the `auto`
chain, with the image-exists hypothesis discharged at a concrete
environment where only OpenCV is available. -/
theorem auto_measure_fallback_order_witness :
    (process_land_measurement
        (⟨true, false, false, MethodOutcome.raised, MethodOutcome.raised,
          MethodOutcome.ok 120⟩ : MeasureEnv) "auto").1 =
      (auto_measure
        (⟨true, false, false, MethodOutcome.raised, MethodOutcome.raised,
          MethodOutcome.ok 120⟩ : MeasureEnv)).1 :=
  (auto_measure_fallback_order
    ⟨true, false, false, MethodOutcome.raised, MethodOutcome.raised,
      MethodOutcome.ok 120⟩).2.2.2.2 rfl

/-- C5: the imagery section of `analyze_property` attempts the sources in
the fixed order Sentinel-2, Landsat-8, Google Static Maps; a later source is
attempted exactly when every earlier one failed, and the property is skipped
(no success) exactly when all three fail. -/
theorem imagery_fallback_order (env : ImgEnv) :
    ((analyze_property_imagery env).1 = [ImgSource.sentinel2] ∨
     (analyze_property_imagery env).1 =
       [ImgSource.sentinel2, ImgSource.landsat8] ∨
     (analyze_property_imagery env).1 =
       [ImgSource.sentinel2, ImgSource.landsat8, ImgSource.google]) ∧
    (ImgSource.sentinel2 ∈ (analyze_property_imagery env).1) ∧
    (ImgSource.landsat8 ∈ (analyze_property_imagery env).1 ↔
      get_satellite_image env ImgSource.sentinel2 = false) ∧
    (ImgSource.google ∈ (analyze_property_imagery env).1 ↔
      (get_satellite_image env ImgSource.sentinel2 = false ∧
       get_satellite_image env ImgSource.landsat8 = false)) ∧
    ((analyze_property_imagery env).2 = false ↔
      (get_satellite_image env ImgSource.sentinel2 = false ∧
       get_satellite_image env ImgSource.landsat8 = false ∧
       get_satellite_image env ImgSource.google = false)) := by
  obtain ⟨a, b, c, d⟩ := env
  cases a <;> cases b <;> cases c <;> cases d <;> decide

/-- C6: `get_coordinates` tries Google Maps first and falls back to
OpenStreetMap whenever Google Maps is unconfigured, finds nothing, or
raises; it returns the found pair on success and `None` when every provider
fails, and it is total (no branch propagates an exception). -/
theorem get_coordinates_fallback (env : GeoEnv) :
    (env.googleAvailable = false →
      get_coordinates env false = get_coordinates_osm env) ∧
    (env.googleOutcome = GeoOutcome.notFound ∨
        env.googleOutcome = GeoOutcome.raised →
      get_coordinates env false = get_coordinates_osm env) ∧
    (∀ lat lng, env.googleAvailable = true →
      env.googleOutcome = GeoOutcome.found lat lng →
      get_coordinates env false = some (lat, lng)) ∧
    (∀ lat lng, env.osmOutcome = GeoOutcome.found lat lng →
      (env.googleAvailable = false ∨
        env.googleOutcome = GeoOutcome.notFound ∨
        env.googleOutcome = GeoOutcome.raised) →
      get_coordinates env false = some (lat, lng)) ∧
    ((env.googleAvailable = false ∨
        env.googleOutcome = GeoOutcome.notFound ∨
        env.googleOutcome = GeoOutcome.raised) →
      (env.osmOutcome = GeoOutcome.notFound ∨
        env.osmOutcome = GeoOutcome.raised) →
      get_coordinates env false = none) := by
  obtain ⟨ga, go, oo⟩ := env
  cases ga <;> cases go <;> cases oo <;>
    simp [get_coordinates, get_coordinates_osm]

/-- C6 witness: the theorem instantiated where Google Maps raises and
OpenStreetMap finds the point, so the fallback produces the OpenStreetMap
pair. -/
theorem get_coordinates_fallback_witness :
    get_coordinates
        (⟨true, GeoOutcome.raised, GeoOutcome.found 10 20⟩ : GeoEnv) false =
      some (10, 20) :=
  (get_coordinates_fallback
    ⟨true, GeoOutcome.raised, GeoOutcome.found 10 20⟩).2.2.2.1 10 20 rfl
    (Or.inr (Or.inr rfl))

/-- C7 counterexample: `clear_database` is an operation of the persistence
module that removes previously stored records — a stored record is gone
after a successful clear, so the store is not append-only across all
operations. -/
theorem clear_database_removes_records_counterexample :
    sampleRecord ∈ get_all_records [sampleRecord] ∧
    clear_database [sampleRecord] true = [] ∧
    sampleRecord ∉ clear_database [sampleRecord] true := by
  refine ⟨?_, rfl, ?_⟩ <;> simp [get_all_records, clear_database]

/-- C7 amended: the persistence operations other than `clear_database` only
ever append: `save_terrain_data` leaves the stored records a sublist-
preserved previous store (either unchanged or with exactly the new record
appended), and `init_database` and `get_all_records` change nothing;
`clear_database`, used for resetting, removes every record on success. -/
theorem persistence_append_only_except_clear (store : List LandRecord)
    (r : LandRecord) (commitOk : Bool) :
    ((save_terrain_data store r commitOk).1 = store ++ [r] ∨
      (save_terrain_data store r commitOk).1 = store) ∧
    List.Sublist store (save_terrain_data store r commitOk).1 ∧
    get_all_records store = store ∧
    init_database store = store ∧
    clear_database store true = [] := by
  cases commitOk <;>
    simp [save_terrain_data, get_all_records, init_database, clear_database]

/-- C8: `compare_areas` is total in its arithmetic: when the registered
polygon has area zero the returned `percent_difference` and
`overlap_percent` are zero instead of a division error, and the returned
`difference` is always the nonnegative absolute difference of the two
polygon areas. -/
theorem compare_areas_total (real_coords registered_coords : List (ℚ × ℚ))
    (overlap_area : ℚ) :
    (polygonArea registered_coords = 0 →
      (compare_areas real_coords registered_coords
          overlap_area).percent_difference = 0 ∧
      (compare_areas real_coords registered_coords
          overlap_area).overlap_percent = 0) ∧
    (compare_areas real_coords registered_coords overlap_area).difference =
      |polygonArea real_coords - polygonArea registered_coords| ∧
    0 ≤ (compare_areas real_coords registered_coords
        overlap_area).difference := by
  refine ⟨fun h => ?_, rfl, abs_nonneg _⟩
  constructor <;> simp [compare_areas, h]

/-- C8 witness: a degenerate registered boundary of three collinear points
has polygon area zero, and `compare_areas` against a 4 by 4 square returns
zero percentages and the absolute difference 16. -/
theorem compare_areas_total_witness :
    polygonArea [((0 : ℚ), (0 : ℚ)), (1, 1), (2, 2)] = 0 ∧
    (compare_areas [((0 : ℚ), (0 : ℚ)), (4, 0), (4, 4), (0, 4)]
        [((0 : ℚ), (0 : ℚ)), (1, 1), (2, 2)] 0).percent_difference = 0 ∧
    (compare_areas [((0 : ℚ), (0 : ℚ)), (4, 0), (4, 4), (0, 4)]
        [((0 : ℚ), (0 : ℚ)), (1, 1), (2, 2)] 0).overlap_percent = 0 := by
  have h0 : polygonArea [((0 : ℚ), (0 : ℚ)), (1, 1), (2, 2)] = 0 := by
    simp [polygonArea, shoelaceSum, edgeCross, List.rotate]
  have h := (compare_areas_total
    [((0 : ℚ), (0 : ℚ)), (4, 0), (4, 4), (0, 4)]
    [((0 : ℚ), (0 : ℚ)), (1, 1), (2, 2)] 0).1 h0
  exact ⟨h0, h.1, h.2⟩

/-- C9: `process_land_measurement` never returns `None`: it errors when the
image path is missing or does not exist, every successful return carries a
measured value, and when every measurement call yields no area it raises
the no-area error. -/
theorem process_land_measurement_no_none (env : MeasureEnv)
    (method : String) :
    (env.imageOk = false →
      process_land_measurement env method =
        ([], Except.error PErr.invalidImage)) ∧
    (∀ x, (process_land_measurement env method).2 = Except.ok x →
      ∃ v, x = some v) ∧
    (env.imageOk = true → env.yoloOutcome = MethodOutcome.noneRes →
      env.tfOutcome = MethodOutcome.noneRes →
      env.opencvOutcome = MethodOutcome.noneRes →
      (process_land_measurement env method).2 =
        Except.error PErr.noArea) := by
  refine ⟨fun h => ?_, fun x hx => ?_, fun h1 h2 h3 h4 => ?_⟩
  · simp [process_land_measurement, h]
  · by_cases himg : env.imageOk = false
    · simp [process_land_measurement, himg] at hx
    · simp only [process_land_measurement, if_neg himg] at hx
      exact finalize_area_ok _ x hx
  · have himg : ¬ env.imageOk = false := by simp [h1]
    simp only [process_land_measurement, if_neg himg]
    split_ifs <;>
      simp [liftRaise, auto_measure, resOf, finalize_area, h2, h3, h4]

/-- C9 witness: the theorem instantiated at a missing image (first
conjunct), at an OpenCV success carrying the value 120 (second conjunct),
and at an environment where every method returns `None` (third conjunct). -/
theorem process_land_measurement_no_none_witness :
    process_land_measurement
        (⟨false, true, true, MethodOutcome.ok 5, MethodOutcome.ok 5,
          MethodOutcome.ok 5⟩ : MeasureEnv) "auto" =
      ([], Except.error PErr.invalidImage) ∧
    (∃ v, (some (120 : ℚ)) = some v) ∧
    (process_land_measurement
        (⟨true, true, true, MethodOutcome.noneRes, MethodOutcome.noneRes,
          MethodOutcome.noneRes⟩ : MeasureEnv) "auto").2 =
      Except.error PErr.noArea :=
  ⟨(process_land_measurement_no_none
      ⟨false, true, true, MethodOutcome.ok 5, MethodOutcome.ok 5,
        MethodOutcome.ok 5⟩ "auto").1 rfl,
    (process_land_measurement_no_none
      ⟨true, false, false, MethodOutcome.ok 5, MethodOutcome.ok 5,
        MethodOutcome.ok 120⟩ "opencv").2.1 (some 120) rfl,
    (process_land_measurement_no_none
      ⟨true, true, true, MethodOutcome.noneRes, MethodOutcome.noneRes,
        MethodOutcome.noneRes⟩ "auto").2.2 rfl rfl rfl rfl⟩

/-- C10: `save_terrain_data` is atomic: on success it returns `True` and
the store grows by exactly the one new record appended at the end; on an
error it rolls back, returns `False`, and the stored records are
unchanged. -/
theorem save_terrain_data_atomic (store : List LandRecord)
    (r : LandRecord) :
    ((save_terrain_data store r true).2 = true ∧
      (save_terrain_data store r true).1 = store ++ [r] ∧
      (save_terrain_data store r true).1.length = store.length + 1) ∧
    ((save_terrain_data store r false).2 = false ∧
      (save_terrain_data store r false).1 = store) := by
  simp [save_terrain_data]

end IPTU
